import Mathlib

/-!
Verification development for `proteotyping/proteotyping_db.py`
(boulund/proteotyping).

The Python module is shallowly embedded: SQLite tables become lists of rows
carried in explicit state values, fallible operations return
`Except String`, generators become functions producing lists, and the
filesystem / network collaborators become explicit function parameters.
Python string primitives (`str.split`, `str.startswith`, `int(...)`,
SQLite `LIKE`) are modelled structurally over the character list underlying
`String`, so that every definition evaluates by `rfl` / `decide`.
-/

namespace Proteotyping

/-! ## Python string primitives -/

/-- Tests whether the character list `p` is a prefix of `s`
(Python's internal prefix test used by `str.split` and `str.startswith`). -/
def isPrefixList : List Char → List Char → Bool
  | [], _ => true
  | _ :: _, [] => false
  | p :: ps, c :: cs => p == c && isPrefixList ps cs

/-- Worker for `pySplit`.  Splits at each non-overlapping occurrence of the
non-empty separator `sep`, scanning left to right.  The `fuel` argument makes
the recursion structural; callers pass `fuel = s.length`, which suffices
because every step consumes at least one character. -/
def pySplitGo (sep : List Char) : Nat → List Char → List (List Char)
  | _, [] => [[]]
  | 0, s => [s]
  | fuel + 1, c :: cs =>
    if isPrefixList sep (c :: cs) then
      [] :: pySplitGo sep fuel (List.drop (sep.length - 1) cs)
    else
      match pySplitGo sep fuel cs with
      | [] => [[c]]
      | t :: ts => (c :: t) :: ts

/-- Python `s.split(sep)` for a non-empty separator: the list of fields
between non-overlapping occurrences of `sep`. -/
def pySplit (s sep : String) : List String :=
  (pySplitGo sep.data s.data.length s.data).map (fun cs => String.mk cs)

/-- Splits a character list at every character satisfying `p`
(used for Python's no-argument `str.split`). -/
def pySplitPred (p : Char → Bool) : List Char → List (List Char)
  | [] => [[]]
  | c :: cs =>
    if p c then [] :: pySplitPred p cs
    else
      match pySplitPred p cs with
      | [] => [[c]]
      | t :: ts => (c :: t) :: ts

/-- Python `s.split()` (no argument): split on whitespace runs, discarding
empty fields. -/
def pySplitWs (s : String) : List String :=
  ((pySplitPred Char.isWhitespace s.data).map (fun cs => String.mk cs)).filter
    (fun t => t != "")

/-- Python `s.startswith(pre)`. -/
def pyStartsWith (s pre : String) : Bool :=
  isPrefixList pre.data s.data

/-- Accumulates the decimal value of a digit run; any non-digit character
makes the whole conversion fail (Python `int(...)` raising `ValueError`). -/
def natOfDigitsGo : Nat → List Char → Option Nat
  | acc, [] => some acc
  | acc, c :: cs =>
    if c.isDigit then natOfDigitsGo (10 * acc + (c.toNat - 48)) cs
    else none

/-- Converts a non-empty all-digit character list to a natural number. -/
def natOfDigits : List Char → Option Nat
  | [] => none
  | cs => natOfDigitsGo 0 cs

/-- Python `int(s)`: optional surrounding whitespace, optional sign, then a
non-empty digit run; anything else raises `ValueError` (here: `none`). -/
def pyInt (s : String) : Option Int :=
  match (s.data.dropWhile Char.isWhitespace).reverse.dropWhile Char.isWhitespace
      |>.reverse with
  | '-' :: cs => (natOfDigits cs).map (fun n => -(n : Int))
  | '+' :: cs => (natOfDigits cs).map (fun n => (n : Int))
  | cs => (natOfDigits cs).map (fun n => (n : Int))

/-- Lower-cases a string character-wise (used to model the ASCII
case-insensitivity of SQLite's `LIKE`). -/
def strLower (s : String) : String :=
  String.mk (s.data.map Char.toLower)

/-! ## The gi→taxid lookup store (`Taxdump_DB_wrapper`) -/

/-- State of the `gi_taxid` SQLite table created by
`Taxdump_DB_wrapper.create_gi_taxid_db`: the rows `(gi, taxid)` in insertion
order.  The `gi` column is declared `INT PRIMARY KEY`, so keys are unique. -/
structure GiTaxidDB where
  rows : List (Int × Int)
deriving Repr, DecidableEq

namespace Taxdump_DB_wrapper

/-- One row of `INSERT INTO gi_taxid VALUES (?, ?)`: the `PRIMARY KEY`
constraint on `gi` makes the insert fail if the key is already present. -/
def insertRow (db : GiTaxidDB) (p : Int × Int) : Except String GiTaxidDB :=
  if db.rows.any (fun q => q.1 == p.1) then
    .error "UNIQUE constraint failed gi_taxid.gi"
  else
    .ok ⟨db.rows ++ [p]⟩

/-- Models `con.executemany("INSERT INTO gi_taxid VALUES (?, ?)", pairs)`:
the rows of one chunk are inserted one after the other. -/
def executemany (db : GiTaxidDB) (pairs : List (Int × Int)) :
    Except String GiTaxidDB :=
  pairs.foldlM insertRow db

end Taxdump_DB_wrapper

/-- Parses one line of the dump file, as `gi, taxid = line.split()` followed
by `int(gi), int(taxid)`: exactly two whitespace-separated integer tokens. -/
def parse_dump_line (line : String) : Except String (Int × Int) :=
  match pySplitWs line with
  | [g, t] =>
    match pyInt g, pyInt t with
    | some gi, some taxid => .ok (gi, taxid)
    | _, _ => .error "ValueError invalid literal for int"
  | _ => .error "ValueError wrong number of values to unpack"

/-- Models `gi_taxid_generator`: yields an `(int(gi), int(taxid))` pair for
each line of the dump file (given here as its list of lines); a malformed
line raises and aborts the generator. -/
def gi_taxid_generator : List String → Except String (List (Int × Int))
  | [] => .ok []
  | line :: rest => do
    let p ← parse_dump_line line
    let ps ← gi_taxid_generator rest
    return p :: ps

/-- Modelled from the spec: `grouper` is defined in `proteotyping/utils`,
which is not among the sources; section 4.2 of the design specifies that it
partitions the pair stream into fixed-size groups, the last group possibly
short. -/
def grouper (k : Nat) : List α → List (List α)
  | [] => []
  | x :: xs => (x :: xs.take (k - 1)) :: grouper k (xs.drop (k - 1))
termination_by l => l.length
decreasing_by
  simp only [List.length_drop, List.length_cons]
  omega

namespace Taxdump_DB_wrapper

/-- Models `create_gi_taxid_db`: create a fresh `gi_taxid` table and
bulk-insert the generated pairs in chunks of `rows_per_chunk` via
`executemany`.  The dump file is given as its list of lines; the PRAGMA
statements, timing and logging are elided as they do not affect the stored
rows. -/
def create_gi_taxid_db (gi_taxid_dmp : List String) (rows_per_chunk : Nat) :
    Except String GiTaxidDB := do
  let pairs ← gi_taxid_generator gi_taxid_dmp
  (grouper rows_per_chunk pairs).foldlM executemany ⟨[]⟩

/-- Models `__getitem__`: `SELECT taxid FROM gi_taxid WHERE gi = ?` plus
`fetchone()`; subscripting the `None` row raises `TypeError`, which the
source catches and turns into `return None`.  The function is total: a
missing key yields `none`, never an exception. -/
def getitem (db : GiTaxidDB) (key : Int) : Option Int :=
  (db.rows.find? (fun q => q.1 == key)).map Prod.snd

/-- Models `__len__`: `SELECT Count(*) FROM gi_taxid`, an aggregate scan of
the table rows (not a cached counter). -/
def len (db : GiTaxidDB) : Nat :=
  db.rows.length

/-- Python truthiness of the `gi_taxid_dmp` argument in `__init__`:
both `None` and the empty string are falsy. -/
def falsyStr : Option String → Bool
  | none => true
  | some s => s == ""

/-- Models `Taxdump_DB_wrapper.__init__`.  The filesystem is abstracted:
`isfile` says whether a store file exists at a path, `existing` gives the
contents of an existing store file, and `dump_lines` gives the lines of a
dump file at a path. -/
def init (isfile : String → Bool) (existing : String → GiTaxidDB)
    (dump_lines : String → List String)
    (sqlite3db_file : Option String) (gi_taxid_dmp : Option String)
    (rows_per_chunk : Nat) : Except String GiTaxidDB :=
  let file := sqlite3db_file.getD "gi_taxid.db"
  if isfile file then
    .ok (existing file)
  else if falsyStr gi_taxid_dmp then
    .error "Argument gi_taxid_dmp required to create new DB."
  else
    create_gi_taxid_db (dump_lines (gi_taxid_dmp.getD "")) rows_per_chunk

end Taxdump_DB_wrapper

/-! ## The identifier resolver with network fallback -/

/-- Python truthiness of an `int`-or-`None` value: `None` and `0` are
falsy, every other integer is truthy. -/
def truthy : Option Int → Bool
  | none => false
  | some t => t != 0

/-- Models `seqinfo[0].split()[0]`: the first whitespace-separated token of
the sequence header; an empty split raises `IndexError`. -/
def extract_header (seqheader : String) : Except String String :=
  match pySplitWs seqheader with
  | [] => .error "IndexError list index out of range"
  | h :: _ => .ok h

/-- Models `int(header.split("gi|")[1].split("|")[0])`: the integer between
the first `gi|` segment and the following `|`. -/
def extract_gi (header : String) : Except String Int :=
  match (pySplit header "gi|").get? 1 with
  | none => .error "IndexError list index out of range"
  | some seg =>
    match pyInt ((pySplit seg "|").headD "") with
    | none => .error "ValueError invalid literal for int"
    | some gi => .ok gi

/-- Models `header.split("ref|")[1].split("|")[0]`: the accession number
between the first `ref|` segment and the following `|`. -/
def extract_accno (header : String) : Except String String :=
  match (pySplit header "ref|").get? 1 with
  | none => .error "IndexError list index out of range"
  | some seg => .ok ((pySplit seg "|").headD "")

/-- Models the parse inside `efetch_taxid`:
`int(xml.text.split("taxid>")[1].split("<")[0])` applied to the body of the
Entrez E-utils reply. -/
def efetch_parse (response_text : String) : Except String Int :=
  match (pySplit response_text "taxid>").get? 1 with
  | none => .error "IndexError list index out of range"
  | some seg =>
    match pyInt ((pySplit seg "<").headD "") with
    | none => .error "ValueError invalid literal for int"
    | some taxid => .ok taxid

/-- Models `efetch_taxid`.  The blocking HTTP round trip is abstracted: the
function takes the reply body as text and applies the source's parse and
truthiness check — a parsed taxid of `0` is returned as `None`. -/
def efetch_taxid (response_text : String) : Except String (Option Int) := do
  let taxid ← efetch_parse response_text
  if taxid != 0 then
    return some taxid
  else
    return none

/-- Processes one sequence record of `create_header_taxid_mappings`:
local gi lookup first; on a falsy local result, the accession-based network
fallback (`fetch`, abstracting `efetch_taxid` applied to the reply for that
accession); a falsy fallback result yields nothing (the record is only
logged).  Returns the (possibly empty) list of pairs yielded for the
record. -/
def process_record (gi_taxid : Int → Option Int) (fetch : String → Option Int)
    (seqheader : String) : Except String (List (String × Int)) := do
  let header ← extract_header seqheader
  let gi ← extract_gi header
  let taxid := gi_taxid gi
  if truthy taxid then
    return [(header, taxid.getD 0)]
  else
    let accno ← extract_accno header
    let taxid2 := fetch accno
    if truthy taxid2 then
      return [(header, taxid2.getD 0)]
    else
      return []

/-- Models `create_header_taxid_mappings`.  The FASTA traversal
(`find_files` and `read_fasta`, external collaborators per the design) is
abstracted into the flattened list of sequence headers encountered; the
generator's output is the concatenation of the pairs yielded per record. -/
def create_header_taxid_mappings (gi_taxid : Int → Option Int)
    (fetch : String → Option Int) :
    List String → Except String (List (String × Int))
  | [] => .ok []
  | s :: rest => do
    let ps ← process_record gi_taxid fetch s
    let tail ← create_header_taxid_mappings gi_taxid fetch rest
    return ps ++ tail

/-! ## The taxonomy store and its schema extension (`NCBITaxa_mod`) -/

/-- A value stored in an SQLite table cell. -/
inductive SQLValue where
  | int (i : Int) : SQLValue
  | text (s : String) : SQLValue
deriving Repr, DecidableEq

/-- One table row. -/
abbrev Row := List SQLValue

/-- State of the taxonomy SQLite database operated on by `NCBITaxa_mod`:
the tables as an association list from table name to rows, in creation
order.  The inherited ete3 taxonomy tables are ordinary entries of this
list; column declarations are elided. -/
structure ProteoDB where
  tables : List (String × List Row)
deriving Repr, DecidableEq

namespace NCBITaxa_mod

/-- Models `DROP TABLE IF EXISTS t`. -/
def dropTableIfExists (db : ProteoDB) (t : String) : ProteoDB :=
  ⟨db.tables.filter (fun p => p.1 != t)⟩

/-- Whether a table named `t` exists. -/
def hasTable (db : ProteoDB) (t : String) : Bool :=
  db.tables.any (fun p => p.1 == t)

/-- Models `CREATE TABLE t (...)`: fails if the table already exists. -/
def createTable (db : ProteoDB) (t : String) : Except String ProteoDB :=
  if hasTable db t then .error ("table " ++ t ++ " already exists")
  else .ok ⟨db.tables ++ [(t, [])]⟩

/-- Models `INSERT INTO t VALUES (...)`: appends a row to the named table;
fails if the table does not exist. -/
def insertInto (db : ProteoDB) (t : String) (r : Row) :
    Except String ProteoDB :=
  if hasTable db t then
    .ok ⟨db.tables.map (fun p => if p.1 == t then (p.1, p.2 ++ [r]) else p)⟩
  else .error ("no such table " ++ t)

/-- The rows of the table named `t`, if it exists. -/
def tableRows (db : ProteoDB) (t : String) : Option (List Row) :=
  (db.tables.find? (fun p => p.1 == t)).map Prod.snd

/-- Models `expand_taxonomy_db`.  `creation_date` stands for the
`time.strftime` result computed inside the source.  The statement sequence
is exactly that of the source: drop five tables if present, then create
`version`, insert its single row, and create `peptides`, `discriminative`,
`refseqs`, `annotations` and `gene` — the `gene` table is created but never
dropped. -/
def expand_taxonomy_db (db : ProteoDB) (creation_date : String)
    (refseq_ver taxonomy_ver comment : String) : Except String ProteoDB := do
  let db := dropTableIfExists db "version"
  let db := dropTableIfExists db "peptides"
  let db := dropTableIfExists db "discriminative"
  let db := dropTableIfExists db "refseqs"
  let db := dropTableIfExists db "annotations"
  let db ← createTable db "version"
  let db ← insertInto db "version"
    [.text creation_date, .text refseq_ver, .text taxonomy_ver, .text comment]
  let db ← createTable db "peptides"
  let db ← createTable db "discriminative"
  let db ← createTable db "refseqs"
  let db ← createTable db "annotations"
  let db ← createTable db "gene"
  return db

/-- Models `insert_refseqs_into_db`: `executemany` of
`INSERT INTO refseqs VALUES (?, ?)` over the header/taxid pairs. -/
def insert_refseqs_into_db (db : ProteoDB) (refseqs : List (String × Int)) :
    Except String ProteoDB :=
  refseqs.foldlM (fun d hr => insertInto d "refseqs" [.text hr.1, .int hr.2]) db

/-- Models SQLite `header LIKE '%' || needle || '%'`: substring match,
case-insensitive (SQLite's `LIKE` is ASCII case-insensitive by default,
modelled here by lower-casing both sides).  An empty needle matches
everything. -/
def likeContains (needle hay : String) : Bool :=
  if needle == "" then true
  else (pySplit (strLower hay) (strLower needle)).length != 1

/-- Models `find_refseq_header`:
`SELECT header FROM refseqs WHERE header LIKE ?` plus `fetchone()[0]`.
The `refseqs` table's header column is given in insertion (scan) order;
`fetchone` returns the first matching row, and subscripting the `None` row
of an empty result raises `TypeError`.  The `lru_cache` memoization does not
change the value returned and is elided. -/
def find_refseq_header (headers : List String) (sequence_identifier : String) :
    Except String String :=
  match headers.find? (fun h => likeContains sequence_identifier h) with
  | some h => .ok h
  | none => .error "TypeError NoneType object is not subscriptable"

end NCBITaxa_mod

/-- Models `prepare_db`.  Opening the ete3 store is abstracted (`db` is the
already-open taxonomy database) and the `refseqs` file is given parsed, as
`parse_refseqs` yields it.  The source passes the hardcoded literals
`"2015-11-17"`, `"2015-11-17"` and `"second try"` to `expand_taxonomy_db`;
its own `taxonomy_ver`, `refseq_ver` and `comment` parameters are unused
(the calls consuming `gene_info`, `annotations_dir` and `globpattern_gff`
are commented out in the source and therefore absent here). -/
def prepare_db (db : ProteoDB) (creation_date : String)
    (header_mappings : List (String × Int))
    (gene_info annotations_dir globpattern_gff : String)
    (taxonomy_ver refseq_ver comment : String) : Except String ProteoDB := do
  let n ← NCBITaxa_mod.expand_taxonomy_db db creation_date
    "2015-11-17" "2015-11-17" "second try"
  NCBITaxa_mod.insert_refseqs_into_db n header_mappings

/-! ## GFF parsing -/

/-- A log event emitted by `parse_gff` for a line that yields no record:
`sentinelLog` is the `logging.debug("Reached end of ...")` branch taken when
the line compares equal to `"###"`, and `errorLog` is the
`logging.error("Couldn't parse gff, ...")` branch for any other line that
does not split into nine tab-separated fields. -/
inductive GffEvent where
  | sentinelLog : GffEvent
  | errorLog (line : String) : GffEvent
deriving Repr, DecidableEq

/-- A yielded GFF record `(sequence, start, end, attributes)`. -/
abbrev GffRecord := String × String × String × String

/-- Models the body of the `try` in `parse_gff`: unpacking
`line.split("\t")` into nine names succeeds exactly when the line has nine
tab-separated fields, and the record keeps fields 1, 4, 5 and 9. -/
def gff_parse_line (line : String) : Option GffRecord :=
  match pySplit line "\t" with
  | [sequence, _source, _feature, start, stop, _score, _strand, _phase,
     attributes] => some (sequence, start, stop, attributes)
  | _ => none

/-- Models the main `while line:` loop of `parse_gff` over the remaining
`readline` results (each line keeps its trailing newline; only the final
line of a file with no trailing newline lacks one).  Returns the yielded
records and the log events for lines that yielded none. -/
def parse_gff_records : List String → List GffRecord × List GffEvent
  | [] => ([], [])
  | line :: rest =>
    let tail := parse_gff_records rest
    match gff_parse_line line with
    | some r => (r :: tail.1, tail.2)
    | none =>
      if line == "###" then (tail.1, GffEvent.sentinelLog :: tail.2)
      else (tail.1, GffEvent.errorLog line :: tail.2)

/-- Models `parse_gff` on the list of `readline` results of a file: the
first line must start with `##gff-version 3` or the whole file is rejected;
the initial `while line.startswith("#")` loop then consumes the first line
and every immediately following line beginning with `#`, and the main loop
processes the rest. -/
def parse_gff (lines : List String) :
    Except String (List GffRecord × List GffEvent) :=
  match lines with
  | [] => .error "Parse error, wrong gff version or not gff file."
  | first :: rest =>
    if pyStartsWith first "##gff-version 3" then
      .ok (parse_gff_records (rest.dropWhile (fun l => pyStartsWith l "#")))
    else
      .error "Parse error, wrong gff version or not gff file."

/-! ## Helper lemmas -/

theorem ok_bind {α β : Type} (a : α) (f : α → Except String β) :
    (Except.ok a : Except String α) >>= f = f a := rfl

theorem error_bind {α β : Type} (e : String) (f : α → Except String β) :
    (Except.error e : Except String α) >>= f = .error e := rfl

/-- Concatenating the groups produced by `grouper` gives back the input. -/
theorem grouper_flatten {α : Type} (k : Nat) (l : List α) :
    (grouper k l).flatten = l := by
  match l with
  | [] => simp [grouper]
  | x :: xs =>
    rw [grouper]
    rw [List.flatten_cons]
    rw [grouper_flatten k (xs.drop (k - 1))]
    simp [List.take_append_drop]
termination_by l.length
decreasing_by
  simp only [List.length_drop, List.length_cons]
  omega

theorem foldlM_insertRow_append (l₁ l₂ : List (Int × Int)) (db : GiTaxidDB) :
    (l₁ ++ l₂).foldlM Taxdump_DB_wrapper.insertRow db
      = (l₁.foldlM Taxdump_DB_wrapper.insertRow db) >>=
          (fun db' => l₂.foldlM Taxdump_DB_wrapper.insertRow db') := by
  induction l₁ generalizing db with
  | nil => simp [List.foldlM_nil, ok_bind]
  | cons p ps ih =>
    rw [List.cons_append, List.foldlM_cons, List.foldlM_cons]
    cases h : Taxdump_DB_wrapper.insertRow db p with
    | ok db' => rw [ok_bind, ok_bind, ih]
    | error e => rw [error_bind, error_bind, error_bind]

/-- Feeding `executemany` the chunks one by one performs exactly the
row-by-row inserts of the concatenation of the chunks. -/
theorem foldlM_executemany_flatten (chunks : List (List (Int × Int)))
    (db : GiTaxidDB) :
    chunks.foldlM Taxdump_DB_wrapper.executemany db
      = chunks.flatten.foldlM Taxdump_DB_wrapper.insertRow db := by
  induction chunks generalizing db with
  | nil => rfl
  | cons c cs ih =>
    rw [List.foldlM_cons, List.flatten_cons, foldlM_insertRow_append]
    show Taxdump_DB_wrapper.executemany db c >>= _ = _
    rw [Taxdump_DB_wrapper.executemany]
    cases h : c.foldlM Taxdump_DB_wrapper.insertRow db with
    | ok db' => rw [ok_bind, ok_bind, ih]
    | error e => rw [error_bind, error_bind]

/-- Row-by-row insertion of pairwise-distinct keys that are also absent from
the store succeeds and appends the pairs in order. -/
theorem foldlM_insertRow_ok (pairs : List (Int × Int)) (db : GiTaxidDB)
    (hdisj : ∀ p ∈ pairs, ∀ q ∈ db.rows, p.1 ≠ q.1)
    (hnodup : (pairs.map Prod.fst).Nodup) :
    pairs.foldlM Taxdump_DB_wrapper.insertRow db = .ok ⟨db.rows ++ pairs⟩ := by
  induction pairs generalizing db with
  | nil => simp [List.foldlM_nil]; rfl
  | cons p ps ih =>
    rw [List.foldlM_cons]
    have hany : (db.rows.any (fun q => q.1 == p.1)) = false := by
      rw [List.any_eq_false]
      intro q hq
      simpa using (hdisj p (by simp) q hq).symm
    rw [Taxdump_DB_wrapper.insertRow, hany]
    simp only [Bool.false_eq_true, if_false, ok_bind]
    rw [List.map_cons, List.nodup_cons] at hnodup
    rw [ih ⟨db.rows ++ [p]⟩ ?_ hnodup.2]
    · simp
    · intro a ha q hq
      rcases List.mem_append.mp hq with hql | hqr
      · exact hdisj a (by simp [ha]) q hql
      · have : q = p := by simpa using hqr
        subst this
        intro hcontra
        exact hnodup.1 (hcontra ▸ List.mem_map_of_mem Prod.fst ha)

/-- A successful run of the dump-line generator yields one pair per line. -/
theorem gi_taxid_generator_length {lines : List String}
    {pairs : List (Int × Int)}
    (h : gi_taxid_generator lines = .ok pairs) :
    pairs.length = lines.length := by
  induction lines generalizing pairs with
  | nil =>
    simp only [gi_taxid_generator] at h
    cases h
    rfl
  | cons l ls ih =>
    rw [gi_taxid_generator] at h
    cases hp : parse_dump_line l with
    | error e => rw [hp, error_bind] at h; cases h
    | ok p =>
      rw [hp, ok_bind] at h
      cases hg : gi_taxid_generator ls with
      | error e => rw [hg, error_bind] at h; cases h
      | ok ps =>
        rw [hg, ok_bind] at h
        cases h
        simp [ih hg]

/-- In a store with pairwise-distinct keys, `find?` locates exactly the
stored pair of a present key. -/
theorem find?_key_of_mem {l : List (Int × Int)}
    (hnd : (l.map Prod.fst).Nodup) {g t : Int} (hmem : (g, t) ∈ l) :
    l.find? (fun q => q.1 == g) = some (g, t) := by
  induction l with
  | nil => cases hmem
  | cons a as ih =>
    rw [List.map_cons, List.nodup_cons] at hnd
    rw [List.find?_cons]
    by_cases hag : a.1 = g
    · have : a = (g, t) := by
        rcases List.mem_cons.mp hmem with h | h
        · exact h.symm
        · exact absurd (hag ▸ List.mem_map_of_mem Prod.fst h) hnd.1
      simp [this]
    · have hne : (a.1 == g) = false := by simpa using hag
      rw [hne]
      have : (g, t) ∈ as := by
        rcases List.mem_cons.mp hmem with h | h
        · exact absurd (congrArg Prod.fst h.symm) hag
        · exact h
      exact ih hnd.2 this

/-! ## Theorems for the claims about the lookup store -/

/-- C3: for every identifier inserted into the lookup store, point lookup
(`Taxdump_DB_wrapper.__getitem__`) returns exactly the taxid it was inserted
with; for every identifier not in the store, lookup returns the explicit
absent result `none` — the embedding is a total function, so no exception
can escape (the source catches the `TypeError` of subscripting a `None`
row).  The `Nodup` hypothesis is the key-uniqueness invariant enforced by
the `PRIMARY KEY` constraint on the `gi` column. -/
theorem claim_C3 (db : GiTaxidDB) (g t : Int)
    (hnodup : (db.rows.map Prod.fst).Nodup) :
    ((g, t) ∈ db.rows → Taxdump_DB_wrapper.getitem db g = some t)
    ∧ (g ∉ db.rows.map Prod.fst → Taxdump_DB_wrapper.getitem db g = none) := by
  constructor
  · intro hmem
    rw [Taxdump_DB_wrapper.getitem, find?_key_of_mem hnodup hmem]
    rfl
  · intro habs
    rw [Taxdump_DB_wrapper.getitem, List.find?_eq_none.mpr]
    · rfl
    · intro q hq hbeq
      exact habs ((eq_of_beq hbeq) ▸ List.mem_map_of_mem Prod.fst hq)

theorem claim_C3_witness :
    ((12345 : Int), (9606 : Int)) ∈ (GiTaxidDB.mk [(12345, 9606), (67890, 10090)]).rows
    ∧ Taxdump_DB_wrapper.getitem ⟨[(12345, 9606), (67890, 10090)]⟩ 12345 = some 9606
    ∧ Taxdump_DB_wrapper.getitem ⟨[(12345, 9606), (67890, 10090)]⟩ 42 = none :=
  ⟨by decide,
   (claim_C3 ⟨[(12345, 9606), (67890, 10090)]⟩ 12345 9606 (by decide)).1 (by decide),
   (claim_C3 ⟨[(12345, 9606), (67890, 10090)]⟩ 42 0 (by decide)).2 (by decide)⟩

/-- C4: constructing the lookup-store facade when no store file exists at
the resolved path and the dump-file argument is falsy fails with a
configuration error whose message states the missing argument
`gi_taxid_dmp`; when a store file exists at the resolved path, construction
opens it directly, for any dump-file argument including `none`. -/
theorem claim_C4 (isfile : String → Bool) (existing : String → GiTaxidDB)
    (dump_lines : String → List String)
    (sqlite3db_file gi_taxid_dmp : Option String) (rows_per_chunk : Nat) :
    (isfile (sqlite3db_file.getD "gi_taxid.db") = false →
      Taxdump_DB_wrapper.falsyStr gi_taxid_dmp = true →
      Taxdump_DB_wrapper.init isfile existing dump_lines sqlite3db_file
          gi_taxid_dmp rows_per_chunk
        = .error "Argument gi_taxid_dmp required to create new DB.")
    ∧ (isfile (sqlite3db_file.getD "gi_taxid.db") = true →
      Taxdump_DB_wrapper.init isfile existing dump_lines sqlite3db_file
          gi_taxid_dmp rows_per_chunk
        = .ok (existing (sqlite3db_file.getD "gi_taxid.db"))) := by
  constructor
  · intro hno hfalsy
    rw [Taxdump_DB_wrapper.init]
    simp [hno, hfalsy]
  · intro hyes
    rw [Taxdump_DB_wrapper.init]
    simp [hyes]

theorem claim_C4_witness :
    ((fun _ => false) : String → Bool) "gi_taxid.db" = false
    ∧ Taxdump_DB_wrapper.falsyStr none = true
    ∧ Taxdump_DB_wrapper.init (fun _ => false) (fun _ => ⟨[]⟩) (fun _ => [])
        none none 200000
      = .error "Argument gi_taxid_dmp required to create new DB."
    ∧ Taxdump_DB_wrapper.init (fun _ => true) (fun _ => ⟨[(1, 2)]⟩)
        (fun _ => []) (some "premade.db") none 200000
      = .ok ⟨[(1, 2)]⟩ :=
  ⟨rfl, rfl,
   (claim_C4 (fun _ => false) (fun _ => ⟨[]⟩) (fun _ => []) none none 200000).1
     rfl rfl,
   (claim_C4 (fun _ => true) (fun _ => ⟨[(1, 2)]⟩) (fun _ => [])
     (some "premade.db") none 200000).2 rfl⟩

/-- C5: for every dump input of N well-formed two-integer lines (with
pairwise-distinct gi keys, the invariant the `PRIMARY KEY` column enforces),
building the store yields exactly the N parsed rows, and the count query
(`__len__`, the `Count(*)` scan over the table) returns N — for any chunk
size. -/
theorem claim_C5 (lines : List String) (pairs : List (Int × Int)) (k : Nat)
    (hgen : gi_taxid_generator lines = .ok pairs)
    (hnodup : (pairs.map Prod.fst).Nodup) :
    Taxdump_DB_wrapper.create_gi_taxid_db lines k = .ok ⟨pairs⟩
    ∧ Taxdump_DB_wrapper.len ⟨pairs⟩ = lines.length := by
  constructor
  · rw [Taxdump_DB_wrapper.create_gi_taxid_db, hgen, ok_bind,
      foldlM_executemany_flatten, grouper_flatten]
    rw [foldlM_insertRow_ok pairs ⟨[]⟩ (by intro p _ q hq; cases hq) hnodup]
    rfl
  · rw [Taxdump_DB_wrapper.len, ← gi_taxid_generator_length hgen]

theorem claim_C5_witness :
    gi_taxid_generator ["12345 9606", "67890 10090"]
      = .ok [(12345, 9606), (67890, 10090)]
    ∧ ((([((12345 : Int), (9606 : Int)), (67890, 10090)]).map Prod.fst).Nodup)
    ∧ Taxdump_DB_wrapper.create_gi_taxid_db ["12345 9606", "67890 10090"] 200000
        = .ok ⟨[(12345, 9606), (67890, 10090)]⟩
    ∧ Taxdump_DB_wrapper.len ⟨[(12345, 9606), (67890, 10090)]⟩ = 2 :=
  ⟨rfl, by decide,
   (claim_C5 ["12345 9606", "67890 10090"] [(12345, 9606), (67890, 10090)]
     200000 rfl (by decide)).1,
   (claim_C5 ["12345 9606", "67890 10090"] [(12345, 9606), (67890, 10090)]
     200000 rfl (by decide)).2⟩

/-- C6: for any fixed dump input, the chunked bulk load produces identical
final store contents for every positive chunk size.  (The chunking helper
`grouper` lives in `proteotyping/utils`, outside these sources, and is
modelled from the spec.) -/
theorem claim_C6 (lines : List String) (k₁ k₂ : Nat)
    (h₁ : 0 < k₁) (h₂ : 0 < k₂) :
    Taxdump_DB_wrapper.create_gi_taxid_db lines k₁
      = Taxdump_DB_wrapper.create_gi_taxid_db lines k₂ := by
  rw [Taxdump_DB_wrapper.create_gi_taxid_db,
    Taxdump_DB_wrapper.create_gi_taxid_db]
  cases hg : gi_taxid_generator lines with
  | error e => rw [error_bind, error_bind]
  | ok pairs =>
    rw [ok_bind, ok_bind, foldlM_executemany_flatten,
      foldlM_executemany_flatten, grouper_flatten, grouper_flatten]

/-- A 50-line dump input for the C6 witness. -/
def dumpLines50 : List String :=
  (List.range 50).map (fun i => toString i ++ " " ++ toString (i + 100))

theorem claim_C6_witness :
    0 < 1 ∧ 0 < 7 ∧ 0 < 200000
    ∧ Taxdump_DB_wrapper.create_gi_taxid_db dumpLines50 1
        = Taxdump_DB_wrapper.create_gi_taxid_db dumpLines50 7
    ∧ Taxdump_DB_wrapper.create_gi_taxid_db dumpLines50 7
        = Taxdump_DB_wrapper.create_gi_taxid_db dumpLines50 200000 :=
  ⟨by decide, by decide, by decide,
   claim_C6 dumpLines50 1 7 (by decide) (by decide),
   claim_C6 dumpLines50 7 200000 (by decide) (by decide)⟩

/-! ## Theorems for the claims about the resolver -/

/-- C2: for a reference-sequence header whose gi identifier is absent from
the lookup store and whose accession-based network fallback yields no match,
the resolver yields zero pairs for that header and processes the remaining
headers exactly as if the unresolved record were not there: an unresolved
record never aborts the scan. -/
theorem claim_C2 (gi_taxid : Int → Option Int) (fetch : String → Option Int)
    (s header accno : String) (gi : Int) (rest : List String)
    (hh : extract_header s = .ok header)
    (hg : extract_gi header = .ok gi)
    (hl : gi_taxid gi = none)
    (ha : extract_accno header = .ok accno)
    (hf : fetch accno = none) :
    create_header_taxid_mappings gi_taxid fetch (s :: rest)
      = create_header_taxid_mappings gi_taxid fetch rest := by
  have hrec : process_record gi_taxid fetch s = .ok [] := by
    simp only [process_record, hh, ok_bind, hg, hl, ha, hf, truthy]
    rfl
  rw [create_header_taxid_mappings, hrec, ok_bind]
  cases hr : create_header_taxid_mappings gi_taxid fetch rest with
  | ok l => rw [ok_bind]; rfl
  | error e => rw [error_bind]

theorem claim_C2_witness :
    extract_header "gi|42|ref|NC_000001|d extra" = .ok "gi|42|ref|NC_000001|d"
    ∧ extract_gi "gi|42|ref|NC_000001|d" = .ok 42
    ∧ ((fun g => if g == (7 : Int) then some (9606 : Int) else none) 42) = none
    ∧ extract_accno "gi|42|ref|NC_000001|d" = .ok "NC_000001"
    ∧ ((fun _ => none) : String → Option Int) "NC_000001" = none
    ∧ create_header_taxid_mappings
        (fun g => if g == (7 : Int) then some (9606 : Int) else none)
        (fun _ => none) ["gi|42|ref|NC_000001|d extra", "gi|7|x"]
      = create_header_taxid_mappings
        (fun g => if g == (7 : Int) then some (9606 : Int) else none)
        (fun _ => none) ["gi|7|x"]
    ∧ create_header_taxid_mappings
        (fun g => if g == (7 : Int) then some (9606 : Int) else none)
        (fun _ => none) ["gi|7|x"]
      = .ok [("gi|7|x", 9606)] :=
  ⟨rfl, rfl, rfl, rfl, rfl,
   claim_C2 (fun g => if g == (7 : Int) then some (9606 : Int) else none)
     (fun _ => none) "gi|42|ref|NC_000001|d extra" "gi|42|ref|NC_000001|d"
     "NC_000001" 42 ["gi|7|x"] rfl rfl rfl rfl rfl,
   rfl⟩

/-- C10: a gi identifier whose stored taxid is `0` is treated exactly like
an absent mapping (the resolver behaves identically whether the store maps
the record's gi to `some 0` or to `none`, so the local result is discarded
and the fallback is attempted); the resolver yields a pair from the local
store only when the stored taxid is nonzero; and `efetch_taxid` returns the
absent result `none` when the parsed remote taxid equals `0`. -/
theorem claim_C10 :
    (∀ (store : Int → Option Int) (fetch : String → Option Int)
       (s header : String) (gi : Int),
       extract_header s = .ok header → extract_gi header = .ok gi →
       store gi = some 0 →
       process_record store fetch s
         = process_record (fun g => if g == gi then none else store g) fetch s)
    ∧ (∀ (store : Int → Option Int) (fetch : String → Option Int)
       (s header : String) (gi taxid : Int),
       extract_header s = .ok header → extract_gi header = .ok gi →
       store gi = some taxid → taxid ≠ 0 →
       process_record store fetch s = .ok [(header, taxid)])
    ∧ (∀ response_text : String, efetch_parse response_text = .ok 0 →
       efetch_taxid response_text = .ok none) := by
  refine ⟨?_, ?_, ?_⟩
  · intro store fetch s header gi hh hg h0
    simp only [process_record, hh, ok_bind, hg, h0, beq_self_eq_true,
      if_true, truthy, bne_self_eq_false, Bool.false_eq_true, if_false]
  · intro store fetch s header gi taxid hh hg ht hnz
    have htr : truthy (some taxid) = true := by
      simp [truthy, hnz]
    simp only [process_record, hh, ok_bind, hg, ht, htr, if_true]
    rfl
  · intro response_text hp
    rw [efetch_taxid, hp, ok_bind]
    rfl

theorem claim_C10_witness :
    process_record (fun g => if g == (42 : Int) then some 0 else none)
        (fun _ => some 7) "gi|42|ref|NC_000001|d"
      = process_record
          (fun g => if g == (42 : Int) then none
                    else (fun g' => if g' == (42 : Int) then some 0 else none) g)
          (fun _ => some 7) "gi|42|ref|NC_000001|d"
    ∧ process_record (fun g => if g == (42 : Int) then some 9606 else none)
        (fun _ => none) "gi|42|ref|NC_000001|d"
      = .ok [("gi|42|ref|NC_000001|d", 9606)]
    ∧ efetch_taxid "<TSeq_taxid>0</TSeq_taxid>" = .ok none :=
  ⟨claim_C10.1 (fun g => if g == (42 : Int) then some 0 else none)
     (fun _ => some 7) "gi|42|ref|NC_000001|d" "gi|42|ref|NC_000001|d" 42
     rfl rfl rfl,
   claim_C10.2.1 (fun g => if g == (42 : Int) then some 9606 else none)
     (fun _ => none) "gi|42|ref|NC_000001|d" "gi|42|ref|NC_000001|d" 42 9606
     rfl rfl rfl (by decide),
   claim_C10.2.2 "<TSeq_taxid>0</TSeq_taxid>" rfl⟩

/-! ## Lemmas about the schema extension -/

/-- The names of the tables touched by `expand_taxonomy_db`: the five it
drops and recreates, plus `gene`, which it creates but never drops. -/
def extTableNames : List String :=
  ["version", "peptides", "discriminative", "refseqs", "annotations", "gene"]

/-- The effect of the five `DROP TABLE IF EXISTS` statements on the table
list. -/
def dropFive (l : List (String × List Row)) : List (String × List Row) :=
  ((((l.filter (fun p => p.1 != "version")).filter
      (fun p => p.1 != "peptides")).filter
      (fun p => p.1 != "discriminative")).filter
      (fun p => p.1 != "refseqs")).filter
    (fun p => p.1 != "annotations")

/-- The six tables appended by a successful `expand_taxonomy_db` call, with
the single metadata row of the `version` table. -/
def extTables (creation_date refseq_ver taxonomy_ver comment : String) :
    List (String × List Row) :=
  [("version",
    [[SQLValue.text creation_date, SQLValue.text refseq_ver,
      SQLValue.text taxonomy_ver, SQLValue.text comment]]),
   ("peptides", []), ("discriminative", []), ("refseqs", []),
   ("annotations", []), ("gene", [])]

theorem mem_dropFive {l : List (String × List Row)} {p : String × List Row}
    (hp : p ∈ dropFive l) :
    p ∈ l ∧ p.1 ≠ "version" ∧ p.1 ≠ "peptides" ∧ p.1 ≠ "discriminative"
      ∧ p.1 ≠ "refseqs" ∧ p.1 ≠ "annotations" := by
  simp only [dropFive, List.mem_filter, bne_iff_ne] at hp
  tauto

theorem any_name_eq_false {l : List (String × List Row)} {t : String}
    (h : ∀ p ∈ l, p.1 ≠ t) : (l.any (fun p => p.1 == t)) = false := by
  rw [List.any_eq_false]
  intro p hp
  simpa using h p hp

theorem filter_name_ne_eq_self {l : List (String × List Row)} {t : String}
    (h : ∀ p ∈ l, p.1 ≠ t) : l.filter (fun p => p.1 != t) = l := by
  rw [List.filter_eq_self]
  intro p hp
  simpa using h p hp

theorem map_upd_eq_self {l : List (String × List Row)} {t : String} {r : Row}
    (h : ∀ p ∈ l, p.1 ≠ t) :
    l.map (fun p => if p.1 = t then (p.1, p.2 ++ [r]) else p) = l := by
  induction l with
  | nil => rfl
  | cons a as ih =>
    rw [List.map_cons, if_neg (h a (by simp))]
    rw [ih (fun p hp => h p (by simp [hp]))]

theorem find?_name_eq_none {l : List (String × List Row)} {t : String}
    (h : ∀ p ∈ l, p.1 ≠ t) : l.find? (fun p => p.1 == t) = none := by
  rw [List.find?_eq_none]
  intro p hp
  simpa using h p hp

/-- Under the base-state hypothesis (none of the six extension-table names
present), `expand_taxonomy_db` succeeds and appends exactly the six tables,
empty except for the single metadata row of `version`. -/
theorem expand_ok (db : ProteoDB) (d r t c : String)
    (hbase : ∀ p ∈ db.tables, p.1 ∉ extTableNames) :
    NCBITaxa_mod.expand_taxonomy_db db d r t c
      = .ok ⟨db.tables ++ extTables d r t c⟩ := by
  obtain ⟨l⟩ := db
  have hb : ∀ p ∈ l, p.1 ≠ "version" ∧ p.1 ≠ "peptides"
      ∧ p.1 ≠ "discriminative" ∧ p.1 ≠ "refseqs" ∧ p.1 ≠ "annotations"
      ∧ p.1 ≠ "gene" := by
    intro p hp
    have := hbase p hp
    simp only [extTableNames, List.mem_cons, List.not_mem_nil] at this
    tauto
  have hv : (l.any (fun p => p.1 == "version")) = false :=
    any_name_eq_false (fun p hp => (hb p hp).1)
  have hp5 : (l.any (fun p => p.1 == "peptides")) = false :=
    any_name_eq_false (fun p hp => (hb p hp).2.1)
  have hd : (l.any (fun p => p.1 == "discriminative")) = false :=
    any_name_eq_false (fun p hp => (hb p hp).2.2.1)
  have hr : (l.any (fun p => p.1 == "refseqs")) = false :=
    any_name_eq_false (fun p hp => (hb p hp).2.2.2.1)
  have ha : (l.any (fun p => p.1 == "annotations")) = false :=
    any_name_eq_false (fun p hp => (hb p hp).2.2.2.2.1)
  have hg : (l.any (fun p => p.1 == "gene")) = false :=
    any_name_eq_false (fun p hp => (hb p hp).2.2.2.2.2)
  have hfv : l.filter (fun p => p.1 != "version") = l :=
    filter_name_ne_eq_self (fun p hp => (hb p hp).1)
  have hfp : l.filter (fun p => p.1 != "peptides") = l :=
    filter_name_ne_eq_self (fun p hp => (hb p hp).2.1)
  have hfd : l.filter (fun p => p.1 != "discriminative") = l :=
    filter_name_ne_eq_self (fun p hp => (hb p hp).2.2.1)
  have hfr : l.filter (fun p => p.1 != "refseqs") = l :=
    filter_name_ne_eq_self (fun p hp => (hb p hp).2.2.2.1)
  have hfa : l.filter (fun p => p.1 != "annotations") = l :=
    filter_name_ne_eq_self (fun p hp => (hb p hp).2.2.2.2.1)
  have hmap : ∀ r' : Row,
      l.map (fun p => if p.1 = "version" then (p.1, p.2 ++ [r']) else p)
        = l :=
    fun r' => map_upd_eq_self (fun p hp => (hb p hp).1)
  simp only [NCBITaxa_mod.expand_taxonomy_db, NCBITaxa_mod.dropTableIfExists,
    NCBITaxa_mod.createTable, NCBITaxa_mod.insertInto, NCBITaxa_mod.hasTable,
    hfv, hfp, hfd, hfr, hfa]
  simp [extTables, hv, hp5, hd, hr, ha, hg, List.any_append, hmap,
    List.map_append, ok_bind]

/-- On a store already in the extended state, the second
`expand_taxonomy_db` call fails: the five dropped tables are recreated, but
`CREATE TABLE gene` hits the `gene` table left over from the first call. -/
theorem expand_extended_fails (base : List (String × List Row))
    (d r t c d' r' t' c' : String)
    (hbase : ∀ p ∈ base, p.1 ∉ extTableNames) :
    NCBITaxa_mod.expand_taxonomy_db ⟨base ++ extTables d r t c⟩ d' r' t' c'
      = .error "table gene already exists" := by
  have hb : ∀ p ∈ base, p.1 ≠ "version" ∧ p.1 ≠ "peptides"
      ∧ p.1 ≠ "discriminative" ∧ p.1 ≠ "refseqs" ∧ p.1 ≠ "annotations"
      ∧ p.1 ≠ "gene" := by
    intro p hp
    have := hbase p hp
    simp only [extTableNames, List.mem_cons, List.not_mem_nil] at this
    tauto
  have hv : (base.any (fun p => p.1 == "version")) = false :=
    any_name_eq_false (fun p hp => (hb p hp).1)
  have hp5 : (base.any (fun p => p.1 == "peptides")) = false :=
    any_name_eq_false (fun p hp => (hb p hp).2.1)
  have hd : (base.any (fun p => p.1 == "discriminative")) = false :=
    any_name_eq_false (fun p hp => (hb p hp).2.2.1)
  have hr : (base.any (fun p => p.1 == "refseqs")) = false :=
    any_name_eq_false (fun p hp => (hb p hp).2.2.2.1)
  have ha : (base.any (fun p => p.1 == "annotations")) = false :=
    any_name_eq_false (fun p hp => (hb p hp).2.2.2.2.1)
  have hg : (base.any (fun p => p.1 == "gene")) = false :=
    any_name_eq_false (fun p hp => (hb p hp).2.2.2.2.2)
  have hfv : base.filter (fun p => p.1 != "version") = base :=
    filter_name_ne_eq_self (fun p hp => (hb p hp).1)
  have hfp : base.filter (fun p => p.1 != "peptides") = base :=
    filter_name_ne_eq_self (fun p hp => (hb p hp).2.1)
  have hfd : base.filter (fun p => p.1 != "discriminative") = base :=
    filter_name_ne_eq_self (fun p hp => (hb p hp).2.2.1)
  have hfr : base.filter (fun p => p.1 != "refseqs") = base :=
    filter_name_ne_eq_self (fun p hp => (hb p hp).2.2.2.1)
  have hfa : base.filter (fun p => p.1 != "annotations") = base :=
    filter_name_ne_eq_self (fun p hp => (hb p hp).2.2.2.2.1)
  have hmap : ∀ r' : Row,
      base.map (fun p => if p.1 = "version" then (p.1, p.2 ++ [r']) else p)
        = base :=
    fun r' => map_upd_eq_self (fun p hp => (hb p hp).1)
  simp only [NCBITaxa_mod.expand_taxonomy_db, NCBITaxa_mod.dropTableIfExists,
    NCBITaxa_mod.createTable, NCBITaxa_mod.insertInto, NCBITaxa_mod.hasTable,
    extTables, List.filter_append, hfv, hfp, hfd, hfr, hfa]
  simp [hv, hp5, hd, hr, ha, hg, List.any_append, hmap, List.map_append,
    ok_bind, error_bind]

/-! ## Theorems for the claims about the schema extension -/

/-- C1 (amended): on a store in base state, one run of the extension
operation succeeds and leaves SIX extension tables (`version`, `peptides`,
`discriminative`, `refseqs`, `annotations` and `gene`), all empty except
`version`, which holds exactly one row with the call's parameters; a second
run does NOT succeed — it fails with a table-already-exists error because
the `gene` table created by the first run is never dropped. -/
theorem claim_C1 (db : ProteoDB) (d r t c d' r' t' c' : String)
    (hbase : ∀ p ∈ db.tables, p.1 ∉ extTableNames) :
    NCBITaxa_mod.expand_taxonomy_db db d r t c
      = .ok ⟨db.tables ++ extTables d r t c⟩
    ∧ NCBITaxa_mod.expand_taxonomy_db ⟨db.tables ++ extTables d r t c⟩
        d' r' t' c'
      = .error "table gene already exists" :=
  ⟨expand_ok db d r t c hbase,
   expand_extended_fails db.tables d r t c d' r' t' c' hbase⟩

/-- C1 counterexample: the claim as stated (running the extension operation
twice in a row succeeds) is false at a concrete base-state store: the second
call fails because `CREATE TABLE gene` hits the `gene` table that the first
call created and no call ever drops. -/
theorem claim_C1_counterexample :
    (NCBITaxa_mod.expand_taxonomy_db ⟨[("species", [])]⟩ "2015-11-17" "a" "b"
        "c" >>= fun db1 =>
      NCBITaxa_mod.expand_taxonomy_db db1 "2015-11-17" "a" "b" "c")
      = .error "table gene already exists" := rfl

theorem claim_C1_witness :
    NCBITaxa_mod.expand_taxonomy_db ⟨[("species", [])]⟩ "2015-11-17" "a" "b"
        "c"
      = .ok ⟨[("species", [])] ++ extTables "2015-11-17" "a" "b" "c"⟩
    ∧ NCBITaxa_mod.expand_taxonomy_db
        ⟨[("species", [])] ++ extTables "2015-11-17" "a" "b" "c"⟩
        "x1" "x2" "x3" "x4"
      = .error "table gene already exists" :=
  claim_C1 ⟨[("species", [])]⟩ "2015-11-17" "a" "b" "c" "x1" "x2" "x3" "x4"
    (by decide)

/-! ## Lemmas and theorems for `prepare_db` -/

theorem find?_map_upd_ne (l : List (String × List Row)) (t t' : String)
    (r : Row) (hne : t ≠ t') :
    (l.map (fun p => if p.1 == t' then (p.1, p.2 ++ [r]) else p)).find?
        (fun p => p.1 == t)
      = l.find? (fun p => p.1 == t) := by
  induction l with
  | nil => rfl
  | cons a as ih =>
    rw [List.map_cons]
    cases hc : (a.1 == t') with
    | true =>
      have hat : (a.1 == t) = false := by
        have h1 := eq_of_beq hc
        simp [h1, Ne.symm hne]
      simp only [hc, if_true, List.find?_cons, hat]
      exact ih
    | false =>
      simp only [hc, Bool.false_eq_true, if_false, List.find?_cons]
      cases hat : (a.1 == t) with
      | true => rfl
      | false => exact ih

/-- Inserting into a table does not change the rows of any other table. -/
theorem tableRows_insertInto_ne {db db' : ProteoDB} {t t' : String} {r : Row}
    (hne : t ≠ t') (h : NCBITaxa_mod.insertInto db t' r = .ok db') :
    NCBITaxa_mod.tableRows db' t = NCBITaxa_mod.tableRows db t := by
  rw [NCBITaxa_mod.insertInto] at h
  by_cases hc : NCBITaxa_mod.hasTable db t' = true
  · rw [if_pos hc] at h
    cases h
    rw [NCBITaxa_mod.tableRows, NCBITaxa_mod.tableRows,
      find?_map_upd_ne db.tables t t' r hne]
  · rw [if_neg hc] at h
    cases h

/-- The bulk insert into `refseqs` leaves the `version` table unchanged. -/
theorem insert_refseqs_preserves_version {refs : List (String × Int)}
    {db db' : ProteoDB}
    (h : NCBITaxa_mod.insert_refseqs_into_db db refs = .ok db') :
    NCBITaxa_mod.tableRows db' "version"
      = NCBITaxa_mod.tableRows db "version" := by
  induction refs generalizing db with
  | nil =>
    rw [NCBITaxa_mod.insert_refseqs_into_db, List.foldlM_nil] at h
    cases h
    rfl
  | cons hr rest ih =>
    rw [NCBITaxa_mod.insert_refseqs_into_db, List.foldlM_cons] at h
    cases hi : NCBITaxa_mod.insertInto db "refseqs"
        [SQLValue.text hr.1, SQLValue.int hr.2] with
    | error e => rw [hi, error_bind] at h; cases h
    | ok dm =>
      rw [hi, ok_bind] at h
      rw [← tableRows_insertInto_ne (by decide) hi]
      exact ih h

/-- C9: the metadata row written by `prepare_db` is independent of its
`taxonomy_ver`, `refseq_ver` and `comment` arguments: the result is
literally the same for any values of those arguments, and the stored
`version` row always carries the hardcoded constants `"2015-11-17"`,
`"2015-11-17"` and `"second try"` (with `d` standing for the
`time.strftime` creation date). -/
theorem claim_C9 (db : ProteoDB) (d : String) (refs : List (String × Int))
    (gene_info annotations_dir globpattern_gff : String)
    (t r c t' r' c' : String) (db' : ProteoDB)
    (hbase : ∀ p ∈ db.tables, p.1 ∉ extTableNames)
    (hok : prepare_db db d refs gene_info annotations_dir globpattern_gff
        t r c = .ok db') :
    prepare_db db d refs gene_info annotations_dir globpattern_gff t r c
      = prepare_db db d refs gene_info annotations_dir globpattern_gff t' r' c'
    ∧ NCBITaxa_mod.tableRows db' "version"
      = some [[SQLValue.text d, SQLValue.text "2015-11-17",
               SQLValue.text "2015-11-17", SQLValue.text "second try"]] := by
  constructor
  · rfl
  · rw [prepare_db,
      expand_ok db d "2015-11-17" "2015-11-17" "second try" hbase, ok_bind]
      at hok
    rw [insert_refseqs_preserves_version hok]
    rw [NCBITaxa_mod.tableRows]
    have hnone : db.tables.find? (fun p => p.1 == "version") = none :=
      find?_name_eq_none (fun p hp heq =>
        hbase p hp (heq ▸ (by decide : ("version" : String) ∈ extTableNames)))
    simp [List.find?_append, hnone, extTables]

theorem claim_C9_witness :
    prepare_db ⟨[]⟩ "2026-02-03" [("h1", 5)] "gi" "ad" "gp" "t" "r" "c"
      = prepare_db ⟨[]⟩ "2026-02-03" [("h1", 5)] "gi" "ad" "gp" "x" "y" "z"
    ∧ NCBITaxa_mod.tableRows
        ⟨[("version",
            [[SQLValue.text "2026-02-03", SQLValue.text "2015-11-17",
              SQLValue.text "2015-11-17", SQLValue.text "second try"]]),
          ("peptides", []), ("discriminative", []),
          ("refseqs", [[SQLValue.text "h1", SQLValue.int 5]]),
          ("annotations", []), ("gene", [])]⟩ "version"
      = some [[SQLValue.text "2026-02-03", SQLValue.text "2015-11-17",
               SQLValue.text "2015-11-17", SQLValue.text "second try"]] :=
  claim_C9 ⟨[]⟩ "2026-02-03" [("h1", 5)] "gi" "ad" "gp" "t" "r" "c" "x" "y"
    "z" _ (by decide) rfl

/-! ## Theorems for the claims about GFF parsing and header lookup -/

/-- C7 (amended): for a file whose first line carries the required version
marker, parsing processes the lines after the initial comment block; a line
that does not split into nine tab-separated fields yields no record, is
logged, and the parser continues with the next line — but the line is
counted as the expected end-of-records sentinel (the `logging.debug`
branch) only when `readline` returned exactly `"###"`, i.e. only for a
final line with no trailing newline; a `###` line with its trailing newline
is logged through the error branch like any other malformed line. -/
theorem claim_C7 (first line : String) (rest rest' : List String)
    (hver : pyStartsWith first "##gff-version 3" = true)
    (hmal : gff_parse_line line = none) :
    parse_gff (first :: rest)
      = .ok (parse_gff_records (rest.dropWhile (fun l => pyStartsWith l "#")))
    ∧ parse_gff_records (line :: rest')
      = ((parse_gff_records rest').1,
         (if line == "###" then GffEvent.sentinelLog
          else GffEvent.errorLog line) :: (parse_gff_records rest').2) := by
  constructor
  · rw [parse_gff]
    rw [if_pos hver]
  · rw [parse_gff_records]
    rw [hmal]
    cases hc : (line == "###") with
    | true => simp only [hc, if_true]
    | false => simp only [hc, Bool.false_eq_true, if_false]

/-- C7 counterexample: in a version-marked file, a lone `###` line in its
ordinary `readline` form (with the trailing newline) is reported through
`logging.error` — the malformed-line branch — not treated as the expected
sentinel, because `"###\n" == "###"` is false. -/
theorem claim_C7_counterexample :
    parse_gff
        ["##gff-version 3\n", "a\tb\tc\td\te\tf\tg\th\ti\n", "###\n"]
      = .ok ([("a", "d", "e", "i\n")], [GffEvent.errorLog "###\n"]) := rfl

theorem claim_C7_witness :
    parse_gff ["##gff-version 3\n", "x\tb\tc\t4\t9\tf\tg\th\tattr\n",
        "###"]
      = .ok (parse_gff_records
          (["x\tb\tc\t4\t9\tf\tg\th\tattr\n", "###"].dropWhile
            (fun l => pyStartsWith l "#")))
    ∧ parse_gff_records ["###"]
      = ((parse_gff_records []).1,
         (if "###" == "###" then GffEvent.sentinelLog
          else GffEvent.errorLog "###") :: (parse_gff_records []).2) :=
  ⟨(claim_C7 "##gff-version 3\n" "###"
      ["x\tb\tc\t4\t9\tf\tg\th\tattr\n", "###"] [] rfl rfl).1,
   (claim_C7 "##gff-version 3\n" "###"
      ["x\tb\tc\t4\t9\tf\tg\th\tattr\n", "###"] [] rfl rfl).2⟩

/-- C8 (amended): the header-substring resolver fails with an uncaught
error (`fetchone()` returns `None` and subscripting it raises `TypeError`)
exactly when zero stored headers match the substring; when one or more
headers match, it returns the first matching header in table-scan order —
multiple matches do NOT make it fail. -/
theorem claim_C8 (headers : List String) (s : String) :
    ((∀ h ∈ headers, NCBITaxa_mod.likeContains s h = false) →
      NCBITaxa_mod.find_refseq_header headers s
        = .error "TypeError NoneType object is not subscriptable")
    ∧ (∀ h, headers.find? (fun x => NCBITaxa_mod.likeContains s x) = some h →
        NCBITaxa_mod.find_refseq_header headers s = .ok h) := by
  constructor
  · intro hnone
    rw [NCBITaxa_mod.find_refseq_header,
      List.find?_eq_none.mpr (fun x hx => by simp [hnone x hx])]
  · intro h hf
    rw [NCBITaxa_mod.find_refseq_header, hf]

/-- C8 counterexample: the claim as stated (the resolver fails whenever the
substring matches more than one stored header) is false: here the substring
`"abc"` matches both stored headers, yet the resolver succeeds and returns
the first one. -/
theorem claim_C8_counterexample :
    NCBITaxa_mod.likeContains "abc" "xxabcyy" = true
    ∧ NCBITaxa_mod.likeContains "abc" "zabcz" = true
    ∧ NCBITaxa_mod.find_refseq_header ["xxabcyy", "zabcz"] "abc"
      = .ok "xxabcyy" :=
  ⟨rfl, rfl, rfl⟩

theorem claim_C8_witness :
    NCBITaxa_mod.find_refseq_header ["gi|1|ref|NC_1|", "plasmid"] "zzz"
      = .error "TypeError NoneType object is not subscriptable"
    ∧ NCBITaxa_mod.find_refseq_header ["gi|1|ref|NC_1|", "plasmid"] "NC_1"
      = .ok "gi|1|ref|NC_1|" :=
  ⟨(claim_C8 ["gi|1|ref|NC_1|", "plasmid"] "zzz").1 (by decide),
   (claim_C8 ["gi|1|ref|NC_1|", "plasmid"] "NC_1").2 "gi|1|ref|NC_1|" rfl⟩

end Proteotyping
